import Mathlib

/-!
Verification development for the baby-feeding event log of `src/main.py`
(class `BabyFeedingBot`).  The store, query, aggregation and time-formatting
logic is embedded as executable Lean definitions; chat transport, rendering
and process bootstrap are out of scope, exactly as in the module's design.

Conventions of the embedding:
* A Python event dict becomes the structure `Entry`; optional payload fields
  (`amount_ml`, `diaper_type`, `temperature_celsius`) are `Option`s, and
  `dict.get(k, default)` becomes `Option.getD`.
* The JSON log (a dict from ISO date string to a list of events) becomes an
  association list `FeedingData`; dict membership/lookup is `lookupD` and
  dict assignment is `setBucket` (replace the existing key in place, or
  append a fresh key, as CPython dicts do).
* Python string comparison (code-point lexicographic) is `strLtChars` on
  `String.data`; `str.split(':')` is `splitChars ':'`; `int(...)` on the
  digit strings that occur in this program is `digitsToNat?` / `pyInt?`.
* Python floats carry only temperature readings here; no claim depends on
  float rounding, so they are modelled as `ℚ`.
* The Amsterdam wall clock is the structure `AmsTime` (day-of-month plus
  time of day); the code under study never reads the month or year.
-/

namespace BabyBot

/-- One event record of the JSON log: the dicts appended by `add_feeding`,
`add_diaper_change` and `add_temperature` in `src/main.py`.  `time` is the
raw stored string, `type` the discriminator (`"drink"`, `"diaper"`,
`"temperature"`), and the three payload fields are present or absent
depending on the kind. -/
structure Entry where
  time : String
  type : String
  amount_ml : Option Int := none
  diaper_type : Option String := none
  temperature_celsius : Option ℚ := none
  user : String := "?"
deriving DecidableEq

/-- The day-keyed event log: the JSON object of `feeding_data.json`,
top-level keys ISO date strings, values arrays of events. -/
abbrev FeedingData := List (String × List Entry)

/-- Dictionary lookup on the day-keyed log: `date_str in feeding_data`
and `feeding_data[date_str]` of the source. -/
def lookupD (d : String) : FeedingData → Option (List Entry)
  | [] => none
  | (k, v) :: rest => if k = d then some v else lookupD d rest

/-- Dictionary assignment `feeding_data[d] = es`: replaces the value of an
existing key in place, appends a new key at the end (CPython dict order). -/
def setBucket (log : FeedingData) (d : String) (es : List Entry) : FeedingData :=
  match lookupD d log with
  | some _ => log.map (fun p => if p.1 = d then (d, es) else p)
  | none => log ++ [(d, es)]

/-- Python code-point lexicographic `<` on strings, as used by
`sorted(...)` and `list.sort(key=lambda x: x['time'])` in the source. -/
def strLtChars : List Char → List Char → Bool
  | [], [] => false
  | [], _ :: _ => true
  | _ :: _, [] => false
  | a :: as, b :: bs => if a = b then strLtChars as bs else decide (a < b)

/-- The non-strict counterpart of `strLtChars`, on whole strings. -/
def strLE (a b : String) : Prop := strLtChars b.data a.data = false

instance : DecidableRel strLE :=
fun a b => inferInstanceAs (Decidable (strLtChars b.data a.data = false))

/-- Ordering of two entries by their raw `time` strings: the sort key
`lambda x: x['time']` used by `delete_last_entry` and `get_today_events`. -/
def timeLE (a b : Entry) : Prop := strLE a.time b.time

instance : DecidableRel timeLE :=
fun a b => inferInstanceAs (Decidable (strLE a.time b.time))

/-- Python `s.split(sep)` for a single-character separator, on the
character list of the string. -/
def splitChars (sep : Char) : List Char → List (List Char)
  | [] => [[]]
  | c :: cs =>
    let r := splitChars sep cs
    if c = sep then [] :: r
    else
      match r with
      | [] => [[c]]
      | g :: gs => (c :: g) :: gs

/-- Numeric value of a digit string (most significant digit first). -/
def digitsVal (l : List Char) : Nat := l.foldl (fun n c => n * 10 + (c.toNat - 48)) 0

/-- Python `int(...)` restricted to the unsigned decimal literals this
program feeds it: `some` on a nonempty all-digit string, `none` (a raised
`ValueError`) otherwise.  (CPython also strips whitespace and accepts
underscores and a sign; no input relevant here uses those forms.) -/
def digitsToNat? (l : List Char) : Option Nat :=
  if l ≠ [] ∧ l.all Char.isDigit then some (digitsVal l) else none

/-- Python `int(message_text)` for the feeding-amount input: an optional
leading minus sign followed by digits. -/
def pyInt? (s : String) : Option Int :=
  match s.data with
  | '-' :: rest => (digitsToNat? rest).map (fun n => -(n : Int))
  | l => (digitsToNat? l).map (fun n => (n : Int))

/-- The `_validate_time_format` check of `src/main.py` (lines 73-93):
the regex `^\d\x7b1,2\x7d:\d\x7b2\x7d$` followed by the range checks
`0 <= hours <= 23` and `0 <= minutes <= 59`.  Note the regex allows a
ONE- or two-digit hour. -/
def validate_time_format (time_str : String) : Bool :=
  match splitChars ':' time_str.data with
  | [hs, ms] =>
    (decide (hs.length = 1 ∨ hs.length = 2) && hs.all Char.isDigit
        && decide (ms.length = 2) && ms.all Char.isDigit)
      && decide (digitsVal hs ≤ 23) && decide (digitsVal ms ≤ 59)
  | _ => false

/-- Amsterdam wall-clock instant as far as the embedded code reads it:
day of month (1-based) and time of day.  `get_amsterdam_time` supplies it;
month and year are never inspected by the code under study. -/
structure AmsTime where
  day : Nat
  hour : Nat
  minute : Nat
  second : Nat

/-- Two-digit zero-padded decimal rendering, as produced by `strftime`
fields `%H`, `%M`, `%S` for their in-range values. -/
def pad2 (n : Nat) : String := if n < 10 then "0" ++ toString n else toString n

/-- The timestamp `amsterdam_time.strftime("%H:%M:%S")`. -/
def strftime_hms (now : AmsTime) : String :=
  pad2 now.hour ++ ":" ++ pad2 now.minute ++ ":" ++ pad2 now.second

/-- The author initial `user_name[0].upper() if user_name else "?"`. -/
def user_initial (user_name : String) : String :=
  match user_name.data with
  | [] => "?"
  | c :: _ => String.singleton c.toUpper

/-- Abstract state of the durable storage file as `load_feeding_data`
observes it: the file is missing, or present and its `json.load` either
yields a log or raises (corrupt/unparseable content). -/
inductive Storage where
  | missing : Storage
  | present : Except String FeedingData → Storage

/-- The store read `load_feeding_data` (src/main.py lines 41-59).  The
second component records whether the operator-facing channel
(`logger.error`) was notified.  Missing file: empty log, no error report.
Corrupt file: the `json.JSONDecodeError` is caught, the error is logged,
and an empty log is returned.  A caller never sees an exception. -/
def load_feeding_data : Storage → FeedingData × Bool
  | .missing => ([], false)
  | .present (.error _) => ([], true)
  | .present (.ok d) => (d, false)

/-- The append `add_feeding` (src/main.py lines 108-139): build the
timestamp (caller-supplied `HH:MM` time gets `":00"` appended, otherwise
`strftime("%H:%M:%S")` of the clock), ensure today's bucket exists, and
append the `"drink"` record. -/
def add_feeding (today : String) (now : AmsTime) (user_name : String)
    (amount_ml : Int) (custom_time : Option String) (log : FeedingData) : FeedingData :=
  let timestamp :=
    match custom_time with
    | some t => t ++ ":00"
    | none => strftime_hms now
  let bucket := (lookupD today log).getD []
  setBucket log today (bucket ++
    [{ time := timestamp, type := "drink", amount_ml := some amount_ml,
       user := user_initial user_name }])

/-- The append `add_diaper_change` (src/main.py lines 141-165). -/
def add_diaper_change (today : String) (now : AmsTime) (user_name : String)
    (diaper_type : String) (log : FeedingData) : FeedingData :=
  let bucket := (lookupD today log).getD []
  setBucket log today (bucket ++
    [{ time := strftime_hms now, type := "diaper", diaper_type := some diaper_type,
       user := user_initial user_name }])

/-- The append `add_temperature` (src/main.py lines 167-191). -/
def add_temperature (today : String) (now : AmsTime) (user_name : String)
    (temperature : ℚ) (log : FeedingData) : FeedingData :=
  let bucket := (lookupD today log).getD []
  setBucket log today (bucket ++
    [{ time := strftime_hms now, type := "temperature",
       temperature_celsius := some temperature, user := user_initial user_name }])

/-- Result of `delete_last_entry`: the removed record and error reason it
returns, plus the log contents written back by `save_feeding_data`
(`saved = none` when the function returned before saving, so durable
storage was not touched). -/
structure DeleteResult where
  deleted : Option Entry
  error : Option String
  saved : Option FeedingData
deriving DecidableEq

/-- The delete operation `delete_last_entry` (src/main.py lines 193-226):
for today's bucket, collect the entries whose `type` matches, sort them by
their raw `time` string (`type_entries.sort(key=lambda x: x['time'])`, a
stable ascending sort, embedded as the stable `List.insertionSort`), take
the last one, remove its first occurrence from the bucket
(`list.remove`, embedded as `removeFirst` below via `List.erase`-style
recursion) and save.  The source tests `if not type_entries` before
sorting; here the empty case surfaces as `getLast? = none`, which holds
exactly when the filtered list is empty. -/
def removeFirst (x : Entry) : List Entry → List Entry
  | [] => []
  | e :: es => if e = x then es else e :: removeFirst x es

/-- See `removeFirst` for the embedding notes. -/
def delete_last_entry (today entry_type : String) (log : FeedingData) : DeleteResult :=
  match lookupD today log with
  | none => { deleted := none, error := some "Geen data gevonden voor vandaag", saved := none }
  | some bucket =>
    match (List.insertionSort timeLE
        (bucket.filter (fun e => decide (e.type = entry_type)))).getLast? with
    | none =>
      { deleted := none,
        error := some ("Geen " ++ entry_type ++ " entries gevonden voor vandaag"),
        saved := none }
    | some last_entry =>
      { deleted := some last_entry, error := none,
        saved := some (setBucket log today (removeFirst last_entry bucket)) }

/-- The query `get_total_ml_for_date` (src/main.py lines 228-238): sum of
`event.get('amount_ml', 0)` over the events of the bucket whose `type`
is `'drink'`; `0` when the date has no bucket. -/
def get_total_ml_for_date (log : FeedingData) (date_str : String) : Int :=
  match lookupD date_str log with
  | none => 0
  | some events =>
    events.foldl
      (fun total_ml e => if e.type = "drink" then total_ml + e.amount_ml.getD 0 else total_ml) 0

/-- The query `get_temperature_for_date` (src/main.py lines 240-250):
`event.get('temperature_celsius', 0)` of the temperature events, in
bucket order. -/
def get_temperature_for_date (log : FeedingData) (date_str : String) : List ℚ :=
  match lookupD date_str log with
  | none => []
  | some events =>
    (events.filter (fun e => decide (e.type = "temperature"))).map
      (fun e => e.temperature_celsius.getD 0)

/-- The three tallies returned by `get_diaper_data_for_date`. -/
structure DiaperCounts where
  pooped : Nat
  peed : Nat
  both : Nat
deriving DecidableEq

/-- One step of the tally loop of `get_diaper_data_for_date`:
`if diaper_type in diaper_counts: diaper_counts[diaper_type] += 1`
for `diaper_type = event.get('diaper_type', '')`; any other string
(including the legacy `'urine'`) falls through uncounted. -/
def diaperStep (c : DiaperCounts) (e : Entry) : DiaperCounts :=
  if e.type = "diaper" then
    let dt := e.diaper_type.getD ""
    if dt = "pooped" then { c with pooped := c.pooped + 1 }
    else if dt = "peed" then { c with peed := c.peed + 1 }
    else if dt = "both" then { c with both := c.both + 1 }
    else c
  else c

/-- The query `get_diaper_data_for_date` (src/main.py lines 252-264). -/
def get_diaper_data_for_date (log : FeedingData) (date_str : String) : DiaperCounts :=
  match lookupD date_str log with
  | none => ⟨0, 0, 0⟩
  | some events => events.foldl diaperStep ⟨0, 0, 0⟩

/-- The per-period tally `get_diaper_totals_for_period` (src/main.py lines
266-283); the dates of every caller are already ISO strings here, so the
`isinstance` branch collapses. -/
def get_diaper_totals_for_period (log : FeedingData) (dates : List String) :
    List Nat × List Nat × List Nat :=
  (dates.map (fun d => (get_diaper_data_for_date log d).pooped),
   dates.map (fun d => (get_diaper_data_for_date log d).peed),
   dates.map (fun d => (get_diaper_data_for_date log d).both))

/-- Per-day average temperature `sum(temps)/len(temps) if temps else None`
as computed by the stats builders. -/
def avgTemp (temps : List ℚ) : Option ℚ :=
  if temps = [] then none else some (temps.sum / temps.length)

/-- The numeric series assembled by `get_all_time_stats` and handed to the
rendering sink: the x-axis dates, the feeding totals, the average
temperatures (zipped against `dates`), the `diaper_data` list the loop
builds (unused by the plot), and the three diaper series the bar chart
actually uses (`get_diaper_totals_for_period(dates)`). -/
structure AllTimeSeries where
  dates : List String
  ml_totals : List Int
  temp_data : List (Option ℚ)
  diaper_data : List Nat
  pooped_counts : List Nat
  peed_counts : List Nat
  both_counts : List Nat

/-- The all-time aggregation `get_all_time_stats` (src/main.py lines
517-671), numeric part.  The date keys are sorted; `ml_totals` is built
over them; then today is appended to `dates`/`ml_totals` when not already
last (line 535).  `temp_data`/`diaper_data` are built over the sorted keys
only, and the guard at line 556 re-tests the ALREADY-UPDATED `dates`
list before appending today's temperature/diaper data — the embedding
reproduces that re-test faithfully.  The bar chart's three series are
computed afterwards over the updated `dates` (line 614).  Date objects
round-trip through ISO strings, so they stay strings here. -/
def get_all_time_stats (today : String) (log : FeedingData) : AllTimeSeries :=
  let sorted_dates := List.insertionSort strLE (log.map Prod.fst)
  let ml0 := sorted_dates.map (fun d => get_total_ml_for_date log d)
  let appendToday : Prop := sorted_dates = [] ∨ sorted_dates.getLast? ≠ some today
  let dates := if appendToday then sorted_dates ++ [today] else sorted_dates
  let ml_totals := if appendToday then ml0 ++ [get_total_ml_for_date log today] else ml0
  let temp0 := sorted_dates.map (fun d => avgTemp (get_temperature_for_date log d))
  let diaper0 := sorted_dates.map (fun d =>
    (get_diaper_data_for_date log d).pooped + (get_diaper_data_for_date log d).peed
      + (get_diaper_data_for_date log d).both)
  let appendToday2 : Prop := dates = [] ∨ dates.getLast? ≠ some today
  let temp_data :=
    if appendToday2 then temp0 ++ [avgTemp (get_temperature_for_date log today)] else temp0
  let diaper_data :=
    if appendToday2 then
      diaper0 ++ [(get_diaper_data_for_date log today).pooped
        + (get_diaper_data_for_date log today).peed + (get_diaper_data_for_date log today).both]
    else diaper0
  let counts := get_diaper_totals_for_period log dates
  { dates := dates, ml_totals := ml_totals, temp_data := temp_data,
    diaper_data := diaper_data,
    pooped_counts := counts.1, peed_counts := counts.2.1, both_counts := counts.2.2 }

/-- The query `get_today_events` (src/main.py lines 680-690): today's
bucket (empty when absent) sorted by the raw `time` string. -/
def get_today_events (today : String) (log : FeedingData) : List Entry :=
  List.insertionSort timeLE ((lookupD today log).getD [])

/-- The helper `parse_time` defined inside `overzicht_command`
(src/main.py lines 827-837): minutes past midnight of a time string, `0`
on any parse failure.  This is the code's own notion of chronological
time-of-day order. -/
def parse_time (time_str : String) : Nat :=
  match splitChars ':' time_str.data with
  | hs :: ms :: _ =>
    match digitsToNat? hs, digitsToNat? ms with
    | some hours, some minutes => hours * 60 + minutes
    | _, _ => 0
  | _ => 0

/-- Parsing of the past time inside `format_time_difference`
(src/main.py lines 700-711): `HH:MM` gets seconds `0`, `HH:MM:SS` keeps
them, any other shape raises (is `none`). -/
def parse_hms (s : String) : Option (Nat × Nat × Nat) :=
  match (splitChars ':' s.data).map digitsToNat? with
  | [some h, some m] => some (h, m, 0)
  | [some h, some m, some sec] => some (h, m, sec)
  | _ => none

/-- Rendering of the computed difference (src/main.py lines 728-743):
truncate to whole minutes, then `"Xu"`/`"XuYm"`/`"Ym"` plus
`" geleden"`. -/
def renderDiff (diffSecs : Nat) : String :=
  let total_minutes := diffSecs / 60
  let hours := total_minutes / 60
  let minutes := total_minutes % 60
  if hours > 0 then
    if minutes > 0 then toString hours ++ "u" ++ toString minutes ++ "m geleden"
    else toString hours ++ "u geleden"
  else toString minutes ++ "m geleden"

/-- The relative-time formatter `format_time_difference` (src/main.py
lines 692-747).  `current_datetime` and `past_datetime` share the date of
`now`; an out-of-range parsed field makes `datetime.replace` raise (the
blanket `except` then yields the sentinel).  When the past time of day is
later than now's, the source runs
`past_datetime.replace(day=past_datetime.day - 1)`: on the first day of a
month that is `replace(day=0)`, a `ValueError` swallowed into the
sentinel; otherwise the difference spans midnight.  `int(total_seconds()/60)`
truncates, which on these non-negative values is `Nat` division. -/
def format_time_difference (now : AmsTime) (past_time_str : String) : String :=
  match parse_hms past_time_str with
  | none => "tijd onbekend"
  | some (past_hour, past_minute, past_second) =>
    if 23 < past_hour ∨ 59 < past_minute ∨ 59 < past_second then "tijd onbekend"
    else
      let nowSecs := now.hour * 3600 + now.minute * 60 + now.second
      let pastSecs := past_hour * 3600 + past_minute * 60 + past_second
      if nowSecs < pastSecs then
        if now.day = 1 then "tijd onbekend"
        else renderDiff (86400 + nowSecs - pastSecs)
      else renderDiff (nowSecs - pastSecs)

/-- The per-chat conversation flags kept in `context.user_data`. -/
structure UserData where
  awaiting_feeding_amount : Bool := false
  awaiting_feeding_time : Bool := false
  feeding_amount : Option Int := none
  awaiting_temperature : Bool := false
deriving DecidableEq

/-- What one `handle_message` call produces: the reply text, the updated
conversation flags, and the stored log after the call. -/
structure HandleOutcome where
  reply : String
  user_data : UserData
  log : FeedingData
deriving DecidableEq

/-- The text-message handler `handle_message` (src/main.py lines
1037-1110), feeding branches.  The `awaiting_feeding_amount` branch
(lines 1054-1070) parses the integer, accepts `0 < amount <= 500` and
moves on to asking for the time, and otherwise rejects without touching
the store; the `awaiting_feeding_time` branch (lines 1072-1087) validates
the `HH:MM` string and only then appends via `add_feeding`.  The
remaining branches (temperature input, fallback help text) are the
`otherwise` argument. -/
def handle_message (today : String) (now : AmsTime) (user_name : String)
    (ud : UserData) (message_text : String) (log : FeedingData)
    (otherwise : HandleOutcome) : HandleOutcome :=
  if ud.awaiting_feeding_amount then
    match pyInt? message_text with
    | none =>
      { reply := "❌ Voer alleen een getal in voor de ml hoeveelheid.",
        user_data := ud, log := log }
    | some amount =>
      if 0 < amount ∧ amount ≤ 500 then
        { reply := "🕐 Wanneer is het begin van deze flesvoeding? Geef de tijd in het formaat UU:MM (bijvoorbeeld 13:02 of 22:04)",
          user_data := { ud with awaiting_feeding_amount := false,
                                 awaiting_feeding_time := true,
                                 feeding_amount := some amount },
          log := log }
      else
        { reply := "❌ Voer een geldig aantal ml in (1-500).", user_data := ud, log := log }
  else if ud.awaiting_feeding_time then
    if validate_time_format message_text then
      { reply := "✅ Fles toegevoegd",
        user_data := { ud with awaiting_feeding_time := false, feeding_amount := none },
        log := add_feeding today now user_name (ud.feeding_amount.getD 0)
                 (some message_text) log }
    else
      { reply := "❌ Ongeldig tijdformaat. Gebruik UU:MM formaat (bijvoorbeeld 13:02 of 22:04). Probeer opnieuw:",
        user_data := ud, log := log }
  else otherwise

/-- Number of events of one kind in a list, the count a user sees for that
kind in the `todayEvents` listing. -/
def countKind (kind : String) (events : List Entry) : Nat :=
  events.countP (fun e => decide (e.type = kind))

/-- Log contents of durable storage after a `delete_last_entry` call:
what was saved, or the untouched previous contents when nothing was. -/
def stored_after (before : FeedingData) (r : DeleteResult) : FeedingData :=
  r.saved.getD before

/-- Everything `delete_last_entry today kind` guarantees on a log whose
bucket for `today` is `bucket`: the call succeeds, returns a matching
entry whose raw `time` string is lexicographically greatest among the
kind's entries of the day (hence the chronologically latest one whenever
those time strings sort lexicographically like times), persists the
bucket with exactly that record removed, decreases the kind's count in
`get_today_events` by exactly one, and leaves every other kind and every
other date unchanged. -/
def DeleteSpec (today kind : String) (log : FeedingData) (bucket : List Entry) : Prop :=
  ∃ e newlog,
    (delete_last_entry today kind log).deleted = some e ∧
    (delete_last_entry today kind log).error = none ∧
    (delete_last_entry today kind log).saved = some newlog ∧
    e ∈ bucket.filter (fun x => decide (x.type = kind)) ∧
    (∀ x ∈ bucket.filter (fun y => decide (y.type = kind)), timeLE x e) ∧
    lookupD today newlog = some (removeFirst e bucket) ∧
    countKind kind (get_today_events today newlog) + 1
      = countKind kind (get_today_events today log) ∧
    (∀ kind', kind' ≠ kind →
      (removeFirst e bucket).filter (fun x => decide (x.type = kind'))
        = bucket.filter (fun x => decide (x.type = kind'))) ∧
    (∀ d, d ≠ today → lookupD d newlog = lookupD d log)

/-- Entry written by `add_feeding` for a caller-supplied time `9:30`. -/
def exE1 : Entry :=
  { time := "9:30:00", type := "drink", amount_ml := some 30, user := "Z" }

/-- Entry written by `add_feeding` for a caller-supplied time `10:00`. -/
def exE2 : Entry :=
  { time := "10:00:00", type := "drink", amount_ml := some 40, user := "Z" }

/-- A log reached from the empty store by two `add_feeding` calls of user
`Zoe` on the same day, with caller-supplied times `9:30` and `10:00`
(both accepted by `validate_time_format`). -/
def exLogC1 : FeedingData :=
  add_feeding "2024-01-05" ⟨5, 0, 0, 0⟩ "Zoe" 40 (some "10:00")
    (add_feeding "2024-01-05" ⟨5, 0, 0, 0⟩ "Zoe" 30 (some "9:30") [])

/-- A bucket with two feedings and a diaper change, for instantiating the
`get_total_ml_for_date` characterisation. -/
def exBucketC2 : List Entry :=
  [{ time := "09:00:00", type := "drink", amount_ml := some 30, user := "Z" },
   { time := "10:15:00", type := "diaper", diaper_type := some "peed", user := "M" },
   { time := "12:30:00", type := "drink", amount_ml := some 40, user := "M" }]

/-- A one-day log holding `exBucketC2`. -/
def exLogC2 : FeedingData := [("2024-01-05", exBucketC2)]

/-- A log whose only recorded day is two days before the `today` used in
the all-time statistics counterexample, and holds one temperature
reading. -/
def exLogC4 : FeedingData :=
  [("2024-01-01", [{ time := "08:00:00", type := "temperature",
                     temperature_celsius := some 38, user := "Z" }])]

/-- A stored diaper event carrying the legacy `urine` diaper type. -/
def exUrineEntry : Entry :=
  { time := "10:00:00", type := "diaper", diaper_type := some "urine", user := "Z" }

/-- A one-day log whose bucket contains only the legacy `urine` diaper
event. -/
def exLogC8 : FeedingData := [("2024-01-05", [exUrineEntry])]

/-- Conversation state right after `/toevoegen_fles`: the handler is
awaiting the feeding amount. -/
def exUD : UserData := { awaiting_feeding_amount := true }

/-- An arbitrary concrete outcome standing in for the elided
`handle_message` branches. -/
def exOther : HandleOutcome := { reply := "", user_data := {}, log := [] }

/-! ## Order lemmas for the raw-string sort key -/

theorem strLtChars_irrefl (l : List Char) : strLtChars l l = false := by
  induction l with
  | nil => rfl
  | cons c cs ih => simp [strLtChars, ih]

theorem strLtChars_trans {a b c : List Char}
    (hab : strLtChars a b = true) (hbc : strLtChars b c = true) :
    strLtChars a c = true := by
  induction a generalizing b c with
  | nil =>
    cases b with
    | nil => simp [strLtChars] at hab
    | cons y ys =>
      cases c with
      | nil => simp [strLtChars] at hbc
      | cons z zs => simp [strLtChars]
  | cons x xs ih =>
    cases b with
    | nil => simp [strLtChars] at hab
    | cons y ys =>
      cases c with
      | nil => simp [strLtChars] at hbc
      | cons z zs =>
        simp only [strLtChars] at hab hbc ⊢
        rcases eq_or_ne x y with hxy | hxy
        · rcases eq_or_ne y z with hyz | hyz
          · rw [if_pos hxy] at hab
            rw [if_pos hyz] at hbc
            rw [if_pos (hxy.trans hyz)]
            exact ih hab hbc
          · have hlt : y < z := by
              rw [if_neg hyz] at hbc
              exact of_decide_eq_true hbc
            have hxz : x ≠ z := fun hh => hyz (by rw [← hxy, hh])
            have hlt' : x < z := by rw [hxy]; exact hlt
            rw [if_neg hxz]
            exact decide_eq_true hlt'
        · have hltxy : x < y := by
            rw [if_neg hxy] at hab
            exact of_decide_eq_true hab
          rcases eq_or_ne y z with hyz | hyz
          · have hxz : x ≠ z := fun hh => hxy (hh.trans hyz.symm)
            have hlt' : x < z := by rw [← hyz]; exact hltxy
            rw [if_neg hxz]
            exact decide_eq_true hlt'
          · have hltyz : y < z := by
              rw [if_neg hyz] at hbc
              exact of_decide_eq_true hbc
            have hlt' : x < z := lt_trans hltxy hltyz
            rw [if_neg (ne_of_lt hlt')]
            exact decide_eq_true hlt'

theorem strLtChars_eq {a b : List Char}
    (h1 : strLtChars a b = false) (h2 : strLtChars b a = false) : a = b := by
  induction a generalizing b with
  | nil =>
    cases b with
    | nil => rfl
    | cons y ys => simp [strLtChars] at h1
  | cons x xs ih =>
    cases b with
    | nil => simp [strLtChars] at h2
    | cons y ys =>
      simp only [strLtChars] at h1 h2
      rcases eq_or_ne x y with hxy | hxy
      · rw [if_pos hxy] at h1
        rw [if_pos hxy.symm] at h2
        rw [hxy, ih h1 h2]
      · rw [if_neg hxy] at h1
        rw [if_neg (Ne.symm hxy)] at h2
        have h1' : ¬x < y := by simpa using h1
        have h2' : ¬y < x := by simpa using h2
        rcases lt_or_gt_of_ne hxy with hlt | hlt
        · exact absurd hlt h1'
        · exact absurd hlt h2'

theorem timeLE_refl (e : Entry) : timeLE e e := strLtChars_irrefl _

instance : IsTotal Entry timeLE := by
  refine ⟨fun a b => ?_⟩
  unfold timeLE strLE
  by_cases h : strLtChars b.time.data a.time.data = false
  · exact Or.inl h
  · right
    have hba : strLtChars b.time.data a.time.data = true := by simpa using h
    by_contra hab
    have hab' : strLtChars a.time.data b.time.data = true := by simpa using hab
    have haa := strLtChars_trans hab' hba
    rw [strLtChars_irrefl] at haa
    exact Bool.false_ne_true haa

instance : IsTrans Entry timeLE := by
  refine ⟨fun a b c hab hbc => ?_⟩
  unfold timeLE strLE at hab hbc ⊢
  by_contra hca
  have hca' : strLtChars c.time.data a.time.data = true := by simpa using hca
  by_cases hab' : strLtChars a.time.data b.time.data = true
  · have hcb := strLtChars_trans hca' hab'
    rw [hbc] at hcb
    exact Bool.false_ne_true hcb
  · have hab'' : strLtChars a.time.data b.time.data = false := by simpa using hab'
    have heq : a.time.data = b.time.data := strLtChars_eq hab'' hab
    rw [← heq] at hbc
    rw [hbc] at hca'
    exact Bool.false_ne_true hca'

/-- The last element of a stably sorted list is a maximum of the original
list: what `type_entries.sort(...); type_entries[-1]` selects. -/
theorem getLast?_insertionSort_max {α : Type} (r : α → α → Prop) [DecidableRel r]
    [IsTotal α r] [IsTrans α r] (hrefl : ∀ x, r x x) (l : List α) (e : α)
    (h : (List.insertionSort r l).getLast? = some e) :
    e ∈ l ∧ ∀ x ∈ l, r x e := by
  have hperm := List.perm_insertionSort r l
  have hsort := List.sorted_insertionSort r l
  have hd := List.dropLast_append_getLast? e h
  have hmem : e ∈ List.insertionSort r l := by
    rw [← hd]
    exact List.mem_append_right _ (List.mem_singleton_self e)
  refine ⟨hperm.mem_iff.mp hmem, fun x hx => ?_⟩
  have hx' : x ∈ List.insertionSort r l := hperm.mem_iff.mpr hx
  rw [← hd] at hx' hsort
  rcases List.mem_append.mp hx' with hxl | hxe
  · exact (List.pairwise_append.mp hsort).2.2 x hxl e (List.mem_singleton_self e)
  · rw [List.mem_singleton.mp hxe]
    exact hrefl e

/-! ## Store lemmas -/

theorem removeFirst_decomp {x : Entry} {l : List Entry} (h : x ∈ l) :
    ∃ l₁ l₂, l = l₁ ++ x :: l₂ ∧ removeFirst x l = l₁ ++ l₂ := by
  induction l with
  | nil => cases h
  | cons e es ih =>
    by_cases he : e = x
    · subst he
      exact ⟨[], es, rfl, by simp [removeFirst]⟩
    · have hx : x ∈ es := by
        rcases List.mem_cons.mp h with h1 | h1
        · exact absurd h1.symm he
        · exact h1
      obtain ⟨l₁, l₂, hdec, hrem⟩ := ih hx
      exact ⟨e :: l₁, l₂, by simp [hdec], by simp [removeFirst, he, hrem]⟩

theorem lookupD_append_self {log : FeedingData} {d : String} (es : List Entry)
    (h : lookupD d log = none) : lookupD d (log ++ [(d, es)]) = some es := by
  induction log with
  | nil => simp [lookupD]
  | cons p ps ih =>
    obtain ⟨k, v⟩ := p
    by_cases hk : k = d
    · rw [lookupD, if_pos hk] at h
      cases h
    · rw [lookupD, if_neg hk] at h
      rw [List.cons_append, lookupD, if_neg hk]
      exact ih h

theorem lookupD_map_set_self {log : FeedingData} {d : String} (es : List Entry)
    (h : (lookupD d log).isSome = true) :
    lookupD d (log.map (fun p => if p.1 = d then (d, es) else p)) = some es := by
  induction log with
  | nil => simp [lookupD] at h
  | cons p ps ih =>
    obtain ⟨k, v⟩ := p
    rw [List.map_cons]
    by_cases hk : k = d
    · rw [if_pos (show (k, v).1 = d from hk), lookupD, if_pos rfl]
    · rw [if_neg (show ¬(k, v).1 = d from hk)]
      have h' : (lookupD d ps).isSome = true := by
        rw [lookupD, if_neg hk] at h
        exact h
      rw [lookupD, if_neg hk]
      exact ih h'

theorem lookupD_setBucket_self (log : FeedingData) (d : String) (es : List Entry) :
    lookupD d (setBucket log d es) = some es := by
  unfold setBucket
  cases h : lookupD d log with
  | none => exact lookupD_append_self es h
  | some b => exact lookupD_map_set_self es (by rw [h]; rfl)

theorem lookupD_append_ne (log : FeedingData) (d : String) (es : List Entry)
    {d' : String} (h : d' ≠ d) :
    lookupD d' (log ++ [(d, es)]) = lookupD d' log := by
  induction log with
  | nil =>
    have hd : ¬(d = d') := fun hh => h hh.symm
    simp [lookupD, hd]
  | cons p ps ih =>
    obtain ⟨k, v⟩ := p
    rw [List.cons_append, lookupD, lookupD]
    by_cases hk : k = d'
    · rw [if_pos hk, if_pos hk]
    · rw [if_neg hk, if_neg hk]
      exact ih

theorem lookupD_map_set_ne (log : FeedingData) (d : String) (es : List Entry)
    {d' : String} (h : d' ≠ d) :
    lookupD d' (log.map (fun p => if p.1 = d then (d, es) else p)) = lookupD d' log := by
  induction log with
  | nil => rfl
  | cons p ps ih =>
    obtain ⟨k, v⟩ := p
    rw [List.map_cons]
    by_cases hk : k = d
    · rw [if_pos (show (k, v).1 = d from hk)]
      have hd : ¬(d = d') := fun hh => h hh.symm
      have hkd : ¬(k = d') := fun hh => h (hh.symm.trans hk)
      rw [lookupD, if_neg hd, lookupD, if_neg hkd]
      exact ih
    · rw [if_neg (show ¬(k, v).1 = d from hk), lookupD, lookupD]
      by_cases hk' : k = d'
      · rw [if_pos hk', if_pos hk']
      · rw [if_neg hk', if_neg hk']
        exact ih

theorem lookupD_setBucket_ne (log : FeedingData) (d : String) (es : List Entry)
    {d' : String} (h : d' ≠ d) :
    lookupD d' (setBucket log d es) = lookupD d' log := by
  unfold setBucket
  cases hl : lookupD d log with
  | none => exact lookupD_append_ne log d es h
  | some b => exact lookupD_map_set_ne log d es h

/-! ## Fold characterisations of the per-date queries -/

theorem foldl_ml (l : List Entry) (acc : Int) :
    l.foldl
      (fun total_ml e => if e.type = "drink" then total_ml + e.amount_ml.getD 0 else total_ml)
      acc
    = acc + ((l.filter (fun e => decide (e.type = "drink"))).map
        (fun e => e.amount_ml.getD 0)).sum := by
  induction l generalizing acc with
  | nil => simp
  | cons e t ih =>
    by_cases h : e.type = "drink"
    · simp [List.foldl_cons, h, ih, List.filter_cons, add_assoc]
    · simp [List.foldl_cons, h, ih, List.filter_cons]

theorem foldl_diaperStep (l : List Entry) (c : DiaperCounts) :
    l.foldl diaperStep c =
      { pooped := c.pooped + l.countP
          (fun e => decide (e.type = "diaper") && decide (e.diaper_type.getD "" = "pooped")),
        peed := c.peed + l.countP
          (fun e => decide (e.type = "diaper") && decide (e.diaper_type.getD "" = "peed")),
        both := c.both + l.countP
          (fun e => decide (e.type = "diaper") && decide (e.diaper_type.getD "" = "both")) } := by
  induction l generalizing c with
  | nil => simp
  | cons e t ih =>
    rw [List.foldl_cons, ih]
    unfold diaperStep
    by_cases h1 : e.type = "diaper"
    · by_cases h2 : e.diaper_type.getD "" = "pooped"
      · simp [h1, h2, List.countP_cons, DiaperCounts.mk.injEq]
        omega
      · by_cases h3 : e.diaper_type.getD "" = "peed"
        · simp [h1, h2, h3, List.countP_cons, DiaperCounts.mk.injEq]
          omega
        · by_cases h4 : e.diaper_type.getD "" = "both"
          · simp [h1, h2, h3, h4, List.countP_cons, DiaperCounts.mk.injEq]
            omega
          · simp [h1, h2, h3, h4, List.countP_cons]
    · simp [h1, List.countP_cons]

/-- The three possible outcomes of `delete_last_entry`: success with a
saved log, or one of the two error returns that happen before any save. -/
theorem delete_last_entry_cases (today kind : String) (log : FeedingData) :
    (∃ e newlog, delete_last_entry today kind log
        = { deleted := some e, error := none, saved := some newlog })
    ∨ (∃ msg, delete_last_entry today kind log
        = { deleted := none, error := some msg, saved := none }) := by
  unfold delete_last_entry
  split
  · exact Or.inr ⟨_, rfl⟩
  · split
    · exact Or.inr ⟨_, rfl⟩
    · exact Or.inl ⟨_, _, rfl⟩

/-! ## Claim theorems -/

/-- Claim C2: for every log and every date, `get_total_ml_for_date`
equals the sum of `amount_ml` over exactly the feeding (`drink`) events
of that date's bucket, and equals `0` when the date has no bucket. -/
theorem get_total_ml_for_date_spec (log : FeedingData) (d : String) :
    (∀ bucket, lookupD d log = some bucket →
      get_total_ml_for_date log d
        = ((bucket.filter (fun e => decide (e.type = "drink"))).map
            (fun e => e.amount_ml.getD 0)).sum)
    ∧ (lookupD d log = none → get_total_ml_for_date log d = 0) := by
  constructor
  · intro bucket hb
    unfold get_total_ml_for_date
    rw [hb]
    simpa using foldl_ml bucket 0
  · intro hb
    unfold get_total_ml_for_date
    rw [hb]

/-- Witness for C2 at a concrete log: a bucket holding 30ml and 40ml
feedings plus a diaper change sums to the feeding amounts only, and an
absent date yields 0. -/
theorem get_total_ml_for_date_spec_witness :
    get_total_ml_for_date exLogC2 "2024-01-05"
      = ((exBucketC2.filter (fun e => decide (e.type = "drink"))).map
          (fun e => e.amount_ml.getD 0)).sum
    ∧ get_total_ml_for_date exLogC2 "2024-01-07" = 0 :=
  ⟨(get_total_ml_for_date_spec exLogC2 "2024-01-05").1 exBucketC2 (by decide),
   (get_total_ml_for_date_spec exLogC2 "2024-01-07").2 (by decide)⟩

/-- Claim C3: `load_feeding_data` never raises to its caller: a missing
storage file yields the empty log, corrupt/unparseable content yields the
empty log with the error reported to the operator-facing channel, and
parseable content is returned as is. -/
theorem load_feeding_data_fail_open (s : Storage) :
    (s = .missing → load_feeding_data s = ([], false))
    ∧ (∀ e, s = .present (.error e) → load_feeding_data s = ([], true))
    ∧ (∀ d, s = .present (.ok d) → load_feeding_data s = (d, false)) := by
  refine ⟨?_, ?_, ?_⟩
  · rintro rfl
    rfl
  · rintro e rfl
    rfl
  · rintro d rfl
    rfl

/-- Witness for C3 at the two failure states of the claim. -/
theorem load_feeding_data_fail_open_witness :
    load_feeding_data .missing = ([], false)
    ∧ load_feeding_data (.present (.error "Expecting value: line 1 column 1")) = ([], true) :=
  ⟨(load_feeding_data_fail_open .missing).1 rfl,
   (load_feeding_data_fail_open (.present (.error "Expecting value: line 1 column 1"))).2.1
     _ rfl⟩

/-- Claim C4 (evidence of the code bug): on a log whose only key is two
days old and holds one temperature reading, the all-time `dates` and
`ml_totals` series do get today appended, and the bar-chart diaper series
are built over the extended dates, but the average-temperature series
(and the loop's `diaper_data` list) keep length 1: the guard at line 556
of `src/main.py` re-tests the already-extended `dates` list, so the
"Add today's data" block is dead code and today is missing from the
temperature series. -/
theorem all_time_temp_series_omits_today :
    (get_all_time_stats "2024-01-03" exLogC4).dates = ["2024-01-01", "2024-01-03"]
    ∧ (get_all_time_stats "2024-01-03" exLogC4).dates.getLast? = some "2024-01-03"
    ∧ (get_all_time_stats "2024-01-03" exLogC4).ml_totals = [0, 0]
    ∧ (get_all_time_stats "2024-01-03" exLogC4).pooped_counts.length = 2
    ∧ (get_all_time_stats "2024-01-03" exLogC4).peed_counts.length = 2
    ∧ (get_all_time_stats "2024-01-03" exLogC4).both_counts.length = 2
    ∧ (get_all_time_stats "2024-01-03" exLogC4).temp_data.length = 1
    ∧ (get_all_time_stats "2024-01-03" exLogC4).diaper_data.length = 1 := by
  decide

/-- Counterexample to claim C5 as stated: across midnight (now `00:10`,
event at `23:50`) the formatter computes the 20-minute difference but
renders it through the `hours == 0` branch, producing `"20m geleden"`,
never a `"0u20m"`-style string with an explicit zero hour. -/
theorem cross_midnight_not_zero_hour_format :
    format_time_difference ⟨15, 0, 10, 0⟩ "23:50" ≠ "0u20m geleden"
    ∧ format_time_difference ⟨15, 0, 10, 0⟩ "23:50" = "20m geleden" := by
  decide

/-- Claim C6 (evidence of the code bug): with now `00:10` on the first
day of a month, the cross-midnight adjustment runs
`replace(day=day-1) = replace(day=0)`, which raises and degrades to the
`"tijd onbekend"` sentinel, while the same clock time on day 2 correctly
yields the rendered 20-minute duration. -/
theorem previous_day_adjust_fails_on_month_start :
    format_time_difference ⟨1, 0, 10, 0⟩ "23:50" = "tijd onbekend"
    ∧ format_time_difference ⟨2, 0, 10, 0⟩ "23:50" = "20m geleden" := by
  decide

/-- Claim C7 (evidence of the code bug): `_validate_time_format` accepts
the one-digit-hour time `9:30`, `add_feeding` then stores the
non-zero-padded `9:30:00`, and on that stored value raw lexicographic
string order disagrees with chronological time-of-day order
(`10:00:00 < 9:30:00` as strings, yet 9:30 is the earlier time). -/
theorem append_accepts_unpadded_hour :
    validate_time_format "9:30" = true
    ∧ lookupD "2024-01-05"
        (add_feeding "2024-01-05" ⟨5, 10, 0, 0⟩ "Zoe" 100 (some "9:30") [])
        = some [{ time := "9:30:00", type := "drink", amount_ml := some 100, user := "Z" }]
    ∧ strLtChars "10:00:00".data "9:30:00".data = true
    ∧ parse_time "9:30:00" < parse_time "10:00:00" := by
  decide

/-- Counterexample to claim C8 as stated: a bucket containing one stored
diaper event with the legacy `diaper_type` value `urine` tallies as all
zeros — the event is dropped, not counted under `peed`. -/
theorem urine_diaper_dropped_from_tally :
    lookupD "2024-01-05" exLogC8 = some [exUrineEntry]
    ∧ exUrineEntry.type = "diaper"
    ∧ exUrineEntry.diaper_type = some "urine"
    ∧ (get_diaper_data_for_date exLogC8 "2024-01-05").peed = 0
    ∧ get_diaper_data_for_date exLogC8 "2024-01-05" = ⟨0, 0, 0⟩ := by
  decide

/-- Claim C8 (amended): the diaper tally counts, per date, exactly the
diaper events whose `diaper_type` is literally `pooped`, `peed` or
`both`; any other stored value — in particular the legacy alias `urine`
— contributes to no counter. -/
theorem diaper_tally_counts_canonical_only (log : FeedingData) (d : String) :
    get_diaper_data_for_date log d =
      { pooped := ((lookupD d log).getD []).countP
          (fun e => decide (e.type = "diaper") && decide (e.diaper_type.getD "" = "pooped")),
        peed := ((lookupD d log).getD []).countP
          (fun e => decide (e.type = "diaper") && decide (e.diaper_type.getD "" = "peed")),
        both := ((lookupD d log).getD []).countP
          (fun e => decide (e.type = "diaper") && decide (e.diaper_type.getD "" = "both")) } := by
  unfold get_diaper_data_for_date
  cases h : lookupD d log with
  | none => simp
  | some events => simpa using foldl_diaperStep events ⟨0, 0, 0⟩

/-- Claim C9: while the handler awaits a feeding amount, any integer
outside 1–500 inclusive is rejected with the user-facing range message,
the stored log is returned unchanged (no append happens), and the
conversation state is left untouched. -/
theorem feeding_amount_out_of_range_rejected
    (today : String) (now : AmsTime) (user_name : String) (ud : UserData)
    (msg : String) (log : FeedingData) (othw : HandleOutcome) (amount : Int)
    (hud : ud.awaiting_feeding_amount = true)
    (hparse : pyInt? msg = some amount)
    (hout : amount < 1 ∨ 500 < amount) :
    (handle_message today now user_name ud msg log othw).log = log
    ∧ (handle_message today now user_name ud msg log othw).reply
        = "❌ Voer een geldig aantal ml in (1-500)."
    ∧ (handle_message today now user_name ud msg log othw).user_data = ud := by
  have hcond : ¬(0 < amount ∧ amount ≤ 500) := by omega
  simp [handle_message, hud, hparse, hcond]

/-- Witness for C9: the spec's own example, a 600 ml feeding. -/
theorem feeding_amount_out_of_range_rejected_witness :
    exUD.awaiting_feeding_amount = true
    ∧ pyInt? "600" = some 600
    ∧ ((600 : Int) < 1 ∨ (500 : Int) < 600)
    ∧ (handle_message "2024-01-05" ⟨5, 10, 0, 0⟩ "Zoe" exUD "600" [] exOther).log = []
    ∧ (handle_message "2024-01-05" ⟨5, 10, 0, 0⟩ "Zoe" exUD "600" [] exOther).reply
        = "❌ Voer een geldig aantal ml in (1-500)."
    ∧ (handle_message "2024-01-05" ⟨5, 10, 0, 0⟩ "Zoe" exUD "600" [] exOther).user_data
        = exUD :=
  ⟨by decide, by decide, by decide,
   feeding_amount_out_of_range_rejected "2024-01-05" ⟨5, 10, 0, 0⟩ "Zoe" exUD "600" []
     exOther 600 (by decide) (by decide) (by decide)⟩

/-- Claim C10: whenever `delete_last_entry` returns an error reason, it
has not called `save_feeding_data`: nothing is written and the stored log
after the call is the stored log before it. -/
theorem delete_last_entry_error_no_save (today kind : String) (log : FeedingData)
    (h : (delete_last_entry today kind log).error.isSome = true) :
    (delete_last_entry today kind log).saved = none
    ∧ stored_after log (delete_last_entry today kind log) = log := by
  rcases delete_last_entry_cases today kind log with ⟨e, nl, heq⟩ | ⟨msg, heq⟩
  · rw [heq] at h
    simp at h
  · rw [heq]
    exact ⟨rfl, rfl⟩

/-- Witness for C10: deleting from an empty store errors and writes
nothing. -/
theorem delete_last_entry_error_no_save_witness :
    (delete_last_entry "2024-01-05" "drink" []).error.isSome = true
    ∧ (delete_last_entry "2024-01-05" "drink" []).saved = none
    ∧ stored_after [] (delete_last_entry "2024-01-05" "drink" []) = [] :=
  ⟨by decide, delete_last_entry_error_no_save "2024-01-05" "drink" [] (by decide)⟩

/-- Counterexample to claim C1 as stated: in a log reachable by two
accepted `add_feeding` calls (custom times `9:30` then `10:00`),
`delete_last_entry` removes the `9:30:00` feeding — the one with the
lexicographically greatest raw time string — although the `10:00:00`
feeding of the same kind and day is chronologically later. -/
theorem delete_last_not_chronologically_latest :
    (delete_last_entry "2024-01-05" "drink" exLogC1).deleted = some exE1
    ∧ exE2 ∈ ((lookupD "2024-01-05" exLogC1).getD []).filter
        (fun e => decide (e.type = "drink"))
    ∧ parse_time exE1.time < parse_time exE2.time := by
  decide

/-- Claim C1 (amended): on any log whose bucket for today holds at least
one entry of the requested kind, `delete_last_entry` succeeds, removes
the matching entry whose RAW TIME STRING is lexicographically greatest
(the chronologically latest one exactly when the stored time strings
order lexicographically like times, e.g. when all hours are two-digit),
persists the result, decreases that kind's count in the sorted
`get_today_events` view by exactly one, and touches no event of another
kind and no other date. -/
theorem delete_last_entry_correct (log : FeedingData) (today kind : String)
    (bucket : List Entry) (hb : lookupD today log = some bucket)
    (hne : bucket.filter (fun e => decide (e.type = kind)) ≠ []) :
    DeleteSpec today kind log bucket := by
  have hperm :=
    List.perm_insertionSort timeLE (bucket.filter (fun e => decide (e.type = kind)))
  have hsne :
      List.insertionSort timeLE (bucket.filter (fun e => decide (e.type = kind))) ≠ [] := by
    intro h0
    rw [h0] at hperm
    exact hne hperm.symm.eq_nil
  obtain ⟨e, he⟩ : ∃ e,
      (List.insertionSort timeLE
        (bucket.filter (fun x => decide (x.type = kind)))).getLast? = some e := by
    cases hg : (List.insertionSort timeLE
        (bucket.filter (fun x => decide (x.type = kind)))).getLast? with
    | none => exact absurd (List.getLast?_eq_none_iff.mp hg) hsne
    | some e => exact ⟨e, rfl⟩
  obtain ⟨hmem, hall⟩ :=
    getLast?_insertionSort_max timeLE timeLE_refl
      (bucket.filter (fun x => decide (x.type = kind))) e he
  have heb : e ∈ bucket := List.mem_of_mem_filter hmem
  have hty : e.type = kind :=
    of_decide_eq_true
      (List.of_mem_filter (p := fun (x : Entry) => decide (x.type = kind)) hmem)
  have hdel : delete_last_entry today kind log =
      { deleted := some e, error := none,
        saved := some (setBucket log today (removeFirst e bucket)) } := by
    unfold delete_last_entry
    split
    next hnone => simp [hb] at hnone
    next bucket' hbucket' =>
      rw [hb] at hbucket'
      injection hbucket' with hbb
      subst hbb
      split
      next hnone2 =>
        rw [he] at hnone2
        cases hnone2
      next last hlast =>
        rw [he] at hlast
        injection hlast with hle
        subst hle
        rfl
  obtain ⟨l₁, l₂, hdec, hrem⟩ := removeFirst_decomp heb
  refine ⟨e, setBucket log today (removeFirst e bucket),
    by rw [hdel], by rw [hdel], by rw [hdel], hmem, hall,
    lookupD_setBucket_self log today (removeFirst e bucket), ?_, ?_, ?_⟩
  · unfold countKind get_today_events
    rw [lookupD_setBucket_self, hb]
    rw [(List.perm_insertionSort timeLE _).countP_eq,
      (List.perm_insertionSort timeLE _).countP_eq]
    rw [Option.getD_some, Option.getD_some, hrem, hdec]
    simp [List.countP_append, List.countP_cons, hty]
    omega
  · intro kind' hk
    have hpe : ¬(e.type = kind') := by
      rw [hty]
      exact Ne.symm hk
    rw [hrem, hdec]
    simp [List.filter_append, List.filter_cons, hpe]
  · intro d hd
    exact lookupD_setBucket_ne log today (removeFirst e bucket) hd

/-- Witness for C1 at the concrete two-feeding log of the
counterexample: every guarantee of `DeleteSpec` holds there. -/
theorem delete_last_entry_correct_witness :
    DeleteSpec "2024-01-05" "drink" exLogC1 [exE1, exE2] :=
  delete_last_entry_correct exLogC1 "2024-01-05" "drink" [exE1, exE2]
    (by decide) (by decide)

/-- Only the `day = 1` test of `format_time_difference` ever reads the
calendar day, so results agree across any two days other than the first
of a month. -/
theorem format_time_difference_day_irrelevant (t : String) (h m s day day' : Nat)
    (h1 : day ≠ 1) (h2 : day' ≠ 1) :
    format_time_difference ⟨day, h, m, s⟩ t = format_time_difference ⟨day', h, m, s⟩ t := by
  unfold format_time_difference
  rcases hp : parse_hms t with _ | ⟨ph, pm, ps⟩
  · rfl
  · dsimp only
    by_cases hr : 23 < ph ∨ 59 < pm ∨ 59 < ps
    · rw [if_pos hr, if_pos hr]
    · rw [if_neg hr, if_neg hr]
      by_cases hc : h * 3600 + m * 60 + s < ph * 3600 + pm * 60 + ps
      · rw [if_pos hc, if_pos hc, if_neg h1, if_neg h2]
      · rw [if_neg hc, if_neg hc]

/-- Claim C5 (amended): evaluated at `00:10` with the event time
`23:50` of the previous day, the formatter returns the 20-minute
difference rendered through the `hours == 0` rule, i.e. `"20m geleden"`
(`"20m ago"`), on every day of month on which the cross-midnight
adjustment works at all (any day but the first). -/
theorem cross_midnight_renders_minutes_only (day : Nat) (hday : 2 ≤ day) :
    format_time_difference ⟨day, 0, 10, 0⟩ "23:50" = "20m geleden" := by
  have h1 : day ≠ 1 := by omega
  rw [format_time_difference_day_irrelevant "23:50" 0 10 0 day 2 h1 (by omega)]
  decide

/-- Witness for C5 at a mid-month day. -/
theorem cross_midnight_renders_minutes_only_witness :
    2 ≤ 15 ∧ format_time_difference ⟨15, 0, 10, 0⟩ "23:50" = "20m geleden" :=
  ⟨by decide, cross_midnight_renders_minutes_only 15 (by decide)⟩

end BabyBot
